import Mathlib

/-
Verification of the PongOn repository (two revisions of the same program:
`src/src/main.cpp` and `src/Source/main.cpp`) against its natural-language
specification.  The physics, exchange ordering, game-loop failure handling
and chat-log maintenance are embedded shallowly below; float values are
modelled as rationals (the operations involved — comparison, negation and
absolute value — are exact on IEEE floats, so the model is faithful).
-/

/-! ## Physics state (both revisions; the code is identical in the two files) -/

/-- `struct Position { float top, bottom, left, right; }`. -/
structure Position where
  top : ℚ
  bottom : ℚ
  left : ℚ
  right : ℚ
deriving DecidableEq

/-- `sf::Vector2f`, as used for the ball velocity. -/
structure Vec2 where
  x : ℚ
  y : ℚ
deriving DecidableEq

/-- `struct Velocities { sf::Vector2f ball; float local; float remote; }`.
`local` is a Lean keyword, hence the trailing underscore. -/
structure Velocities where
  ball : Vec2
  local_ : ℚ
  remote : ℚ
deriving DecidableEq

/-- `struct Positions { Position ball; Position local; Position remote; }`. -/
structure Positions where
  ball : Position
  local_ : Position
  remote : Position
deriving DecidableEq

/-- `constexpr const unsigned int kWinWidth {512}` (`WinWidth` in `Source/`). -/
def kWinWidth : ℚ := 512

/-- `constexpr const unsigned int kWinHeight {256}` (`WinHeight` in `Source/`). -/
def kWinHeight : ℚ := 256

/-- `constexpr const float kBallRadius {10.5f}` (exactly representable). -/
def kBallRadius : ℚ := 21 / 2

/-- `constexpr const float kBallVelocity {2.5f}` (exactly representable). -/
def kBallVelocity : ℚ := 5 / 2

/-- The `collided` lambda of `update_velocities`, lifted to a top-level
definition: AABB overlap of the ball box with a paddle box,
`(ball.right >= paddle.left && ball.left <= paddle.right) &&
 (ball.bottom >= paddle.top && ball.top <= paddle.bottom)`. -/
def collided (ballpos paddle : Position) : Prop :=
  (ballpos.right ≥ paddle.left ∧ ballpos.left ≤ paddle.right)
    ∧ (ballpos.bottom ≥ paddle.top ∧ ballpos.top ≤ paddle.bottom)

instance (ballpos paddle : Position) : Decidable (collided ballpos paddle) := by
  unfold collided
  exact inferInstance

/-- `update_velocities` from `src/src/main.cpp` lines 203-235 (the physics
text in `src/Source/main.cpp` lines 178-211 is identical):
paddle collision flips the horizontal ball velocity, otherwise the four wall
checks run (x and y axes independent, each an if/else-if pair), and the local
paddle velocity is clamped to 0 at the top/bottom walls.
`if (velocities->local)` is float truthiness, i.e. `local != 0`. -/
def update_velocities (positions : Positions) (velocities : Velocities) : Velocities :=
  let ballpos := positions.ball
  let ball1 : Vec2 :=
    if collided ballpos positions.local_ ∨ collided ballpos positions.remote then
      ⟨-velocities.ball.x, velocities.ball.y⟩
    else
      ⟨if ballpos.left < 0 then |velocities.ball.x|
        else if ballpos.right > kWinWidth then -|velocities.ball.x|
        else velocities.ball.x,
       if ballpos.top < 0 then |velocities.ball.y|
        else if ballpos.bottom > kWinHeight then -|velocities.ball.y|
        else velocities.ball.y⟩
  let local1 : ℚ :=
    if velocities.local_ ≠ 0 then
      if velocities.local_ < 0 ∧ positions.local_.top ≤ 0 then 0
      else if velocities.local_ > 0 ∧ positions.local_.bottom ≥ kWinHeight then 0
      else velocities.local_
    else velocities.local_
  ⟨ball1, local1, velocities.remote⟩

/-- `update_velocities` from `src/Source/main.cpp` lines 178-214.  Identical
physics, but the function ends with
`Connection::Exchange(velocities->local, &velocities->remote);` (line 213):
it sends the updated local paddle velocity and overwrites the remote paddle
velocity with the value received from the peer.  The network is modelled
explicitly: `net_recv` is the value delivered by the socket, and the second
component of the result is the list of values handed to the socket for
sending (success path of the exchange). -/
def update_velocities_Source (positions : Positions) (velocities : Velocities)
    (net_recv : ℚ) : Velocities × List ℚ :=
  let ballpos := positions.ball
  let ball1 : Vec2 :=
    if collided ballpos positions.local_ ∨ collided ballpos positions.remote then
      ⟨-velocities.ball.x, velocities.ball.y⟩
    else
      ⟨if ballpos.left < 0 then |velocities.ball.x|
        else if ballpos.right > kWinWidth then -|velocities.ball.x|
        else velocities.ball.x,
       if ballpos.top < 0 then |velocities.ball.y|
        else if ballpos.bottom > kWinHeight then -|velocities.ball.y|
        else velocities.ball.y⟩
  let local1 : ℚ :=
    if velocities.local_ ≠ 0 then
      if velocities.local_ < 0 ∧ positions.local_.top ≤ 0 then 0
      else if velocities.local_ > 0 ∧ positions.local_.bottom ≥ kWinHeight then 0
      else velocities.local_
    else velocities.local_
  (⟨ball1, local1, net_recv⟩, [local1])

/-! ## Network exchange (Connection namespace of both revisions) -/

/-- Observable socket primitive invocations, recorded in order. -/
inductive ExEvent where
  | send : ExEvent
  | receive : ExEvent
deriving DecidableEq

/-- `sf::Socket::Status`: `Done` is success, everything else failure. -/
inductive SocketStatus where
  | Done : SocketStatus
  | NotReady : SocketStatus
  | Partial : SocketStatus
  | Disconnected : SocketStatus
  | Error : SocketStatus
deriving DecidableEq

/-- The mutable `Connection` state the exchange code touches:
`static sf::Socket::Status status`, the socket's connectedness (released by
`Connection::Close`), and the instrumentation trace of primitive calls. -/
structure ConnState where
  status : SocketStatus
  connected : Bool
  trace : List ExEvent
deriving DecidableEq

/-- `constexpr` exit code of a clean shutdown, `return EXIT_SUCCESS`. -/
def EXIT_SUCCESS : Nat := 0

namespace Connection

/-- `Connection::Send`: `status = socket.send(...); return status == Done;`.
`sock_result` is the status the transport returns for this call. -/
def Send (sock_result : SocketStatus) (c : ConnState) : Bool × ConnState :=
  (decide (sock_result = SocketStatus.Done),
   { c with status := sock_result, trace := c.trace ++ [ExEvent.send] })

/-- `Connection::Receive`: `status = socket.receive(...); return status == Done;`. -/
def Receive (sock_result : SocketStatus) (c : ConnState) : Bool × ConnState :=
  (decide (sock_result = SocketStatus.Done),
   { c with status := sock_result, trace := c.trace ++ [ExEvent.receive] })

/-- `Connection::ExchangeFun` (`src/src/main.cpp` 373-380, `src/Source/main.cpp`
345-352): `if (is_server) return send() && receive(); else return receive() && send();`
with C++ short-circuit evaluation of `&&`. -/
def ExchangeFun {σ : Type} (is_server : Bool) (send receive : σ → Bool × σ) (s : σ) :
    Bool × σ :=
  if is_server then
    let r := send s
    if r.1 then receive r.2 else (false, r.2)
  else
    let r := receive s
    if r.1 then send r.2 else (false, r.2)

/-- `Connection::Exchange`, which wraps one send primitive and one receive
primitive in `ExchangeFun`.  `send_st`/`recv_st` are the statuses the
transport returns for the two primitives should they be invoked. -/
def Exchange (is_server : Bool) (send_st recv_st : SocketStatus) (c : ConnState) :
    Bool × ConnState :=
  ExchangeFun is_server (Send send_st) (Receive recv_st) c

/-- `Connection::Close`: `socket.disconnect(); ...` — releases the connection. -/
def Close (c : ConnState) : ConnState := { c with connected := false }

end Connection

/-- Transport outcomes offered to one frame of the game loop: the chat
exchange of `Connection::UpdateChat` and the checked velocity exchange. -/
structure FrameNet where
  chat_send : SocketStatus
  chat_recv : SocketStatus
  vel_send : SocketStatus
  vel_recv : SocketStatus
deriving DecidableEq

/-- One frame of the `src/src/main.cpp` game loop, network part (lines
146-154): `Connection::UpdateChat()` runs a packet exchange whose result is
IGNORED (line 397 discards the return value), then the velocity exchange
runs and its result is returned to the loop. -/
def frame (is_server : Bool) (f : FrameNet) (c : ConnState) : Bool × ConnState :=
  let chat := Connection.Exchange is_server f.chat_send f.chat_recv c
  Connection.Exchange is_server f.vel_send f.vel_recv chat.2

/-- The `while (window.isOpen())` loop of `src/src/main.cpp` (lines 129-166),
network skeleton: each frame runs `frame`; a failed velocity exchange breaks
the loop; after the loop `Connection::Close()` runs and `main` returns
`EXIT_SUCCESS`.  Result: (exit code, number of frames executed, final
connection state). -/
def run_loop (is_server : Bool) : List FrameNet → ConnState → Nat × Nat × ConnState
  | [], c => (EXIT_SUCCESS, 0, Connection.Close c)
  | f :: rest, c =>
    let r := frame is_server f c
    if r.1 then
      let t := run_loop is_server rest r.2
      (t.1, t.2.1 + 1, t.2.2)
    else (EXIT_SUCCESS, 1, Connection.Close r.2)

/-! ## Chat (Connection::UpdateChat / Connection::PrintChat of src/src/main.cpp) -/

/-- Byte strings of the chat code, modelled as lists of characters. -/
abbrev Chars := List Char

namespace Connection

/-- The `chat_msgs` maintenance performed by `Connection::PrintChat`
(`src/src/main.cpp` lines 418-425): when the log size reaches 100,
`std::move(begin+80, end, begin)` followed by `erase(begin+20, end)` keeps
exactly the entries that were at indices 80..99, i.e. `(drop 80).take 20`. -/
def PrintChatTruncate (chat_msgs : List Chars) : List Chars :=
  if 100 ≤ chat_msgs.length then ((chat_msgs.drop 80).take 20) else chat_msgs

/-- `Connection::UpdateChat` (`src/src/main.cpp` lines 383-407), state part.
If `sending_msg` is non-empty it is truncated to 50 bytes when longer
(`substr(0, 50)`), formatted as `local_nick + ":> " + text`, handed to the
exchange as the outbound payload, appended to the log, and the slot is
cleared; otherwise an empty payload is sent.  The received string, if
non-empty, is appended to the log.  `PrintChat` (which truncates) runs when
the log size changed.  Result: (payload sent, new pending slot, new log). -/
def UpdateChat (local_nick sending_msg : Chars) (chat_msgs : List Chars)
    (received : Chars) : Chars × Chars × List Chars :=
  let step1 : Chars × Chars × List Chars :=
    if sending_msg ≠ [] then
      let s := if 50 < sending_msg.length then sending_msg.take 50 else sending_msg
      let fmt := local_nick ++ [':', '>', ' '] ++ s
      (fmt, [], chat_msgs ++ [fmt])
    else ([], sending_msg, chat_msgs)
  let msgs2 := if received ≠ [] then step1.2.2 ++ [received] else step1.2.2
  let msgs3 := if msgs2.length ≠ chat_msgs.length then PrintChatTruncate msgs2 else msgs2
  (step1.1, step1.2.1, msgs3)

end Connection

/-- Appending one received entry to the chat log via one `UpdateChat` call
with nothing pending locally (the one-entry-at-a-time append step). -/
def chatAppend (msgs : List Chars) (m : Chars) : List Chars :=
  (Connection.UpdateChat [] [] msgs m).2.2

/-! ## Helper lemmas on the chat log -/

lemma chatAppend_ne (msgs : List Chars) (m : Chars) (hm : m ≠ []) :
    chatAppend msgs m = Connection.PrintChatTruncate (msgs ++ [m]) := by
  simp [chatAppend, Connection.UpdateChat, hm]

lemma printChatTruncate_of_lt (msgs : List Chars) (h : msgs.length < 100) :
    Connection.PrintChatTruncate msgs = msgs := by
  unfold Connection.PrintChatTruncate
  rw [if_neg]
  omega

lemma chatAppend_small (msgs : List Chars) (m : Chars) (hm : m ≠ [])
    (h : msgs.length ≤ 98) : chatAppend msgs m = msgs ++ [m] := by
  rw [chatAppend_ne msgs m hm]
  exact printChatTruncate_of_lt _
    (by simp only [List.length_append, List.length_cons, List.length_nil]; omega)

lemma chatAppend_full (msgs : List Chars) (m : Chars) (hm : m ≠ [])
    (h : msgs.length = 99) : chatAppend msgs m = (msgs ++ [m]).drop 80 := by
  rw [chatAppend_ne msgs m hm]
  unfold Connection.PrintChatTruncate
  rw [if_pos (by simp only [List.length_append, List.length_cons, List.length_nil]; omega)]
  exact List.take_of_length_le
    (by simp only [List.length_drop, List.length_append, List.length_cons,
          List.length_nil]; omega)

lemma chatFold_suffix (msgs : List Chars) : ∀ s : List Chars, s.length ≤ 99 →
    (∀ m ∈ msgs, m ≠ []) →
    ∃ k, List.foldl chatAppend s msgs = (s ++ msgs).drop k
      ∧ (List.foldl chatAppend s msgs).length ≤ 99 := by
  induction msgs with
  | nil =>
    intro s hs _
    exact ⟨0, by simp, by simpa using hs⟩
  | cons m ms ih =>
    intro s hs hne
    have hm : m ≠ [] := hne m (List.mem_cons_self m ms)
    have hne' : ∀ x ∈ ms, x ≠ [] := fun x hx => hne x (List.mem_cons_of_mem m hx)
    rcases Nat.lt_or_ge s.length 99 with h99 | h99
    · have h1 : chatAppend s m = s ++ [m] := chatAppend_small s m hm (by omega)
      have hlen : (chatAppend s m).length ≤ 99 := by
        rw [h1]
        simp only [List.length_append, List.length_cons, List.length_nil]
        omega
      obtain ⟨k, hk, hl⟩ := ih (chatAppend s m) hlen hne'
      refine ⟨k, ?_, ?_⟩
      · rw [List.foldl_cons, hk, h1, List.append_assoc, List.singleton_append]
      · rw [List.foldl_cons]
        exact hl
    · have h99' : s.length = 99 := le_antisymm hs h99
      have h1 : chatAppend s m = (s ++ [m]).drop 80 := chatAppend_full s m hm h99'
      have hlen : (chatAppend s m).length ≤ 99 := by
        rw [h1]
        simp only [List.length_drop, List.length_append, List.length_cons,
          List.length_nil]
        omega
      obtain ⟨k, hk, hl⟩ := ih (chatAppend s m) hlen hne'
      refine ⟨80 + k, ?_, ?_⟩
      · rw [List.foldl_cons, hk, h1]
        have e1 : s ++ m :: ms = (s ++ [m]) ++ ms := by
          rw [List.append_assoc, List.singleton_append]
        have e2 : ((s ++ [m]) ++ ms).drop 80 = (s ++ [m]).drop 80 ++ ms :=
          List.drop_append_of_le_length
            (by simp only [List.length_append, List.length_cons, List.length_nil]; omega)
        rw [e1, ← e2, List.drop_drop]
      · rw [List.foldl_cons]
        exact hl

lemma chatFold_no_trunc (msgs : List Chars) : ∀ s : List Chars,
    (∀ m ∈ msgs, m ≠ []) → s.length + msgs.length ≤ 99 →
    List.foldl chatAppend s msgs = s ++ msgs := by
  induction msgs with
  | nil =>
    intro s _ _
    simp
  | cons m ms ih =>
    intro s hne hlen
    simp only [List.length_cons] at hlen
    have hm : m ≠ [] := hne m (List.mem_cons_self m ms)
    have h1 : chatAppend s m = s ++ [m] := chatAppend_small s m hm (by omega)
    rw [List.foldl_cons, h1,
      ih (s ++ [m]) (fun x hx => hne x (List.mem_cons_of_mem m hx))
        (by simp only [List.length_append, List.length_cons, List.length_nil]; omega),
      List.append_assoc, List.singleton_append]

/-! ## Projection lemmas for update_velocities -/

lemma update_velocities_ball (p : Positions) (v : Velocities) :
    (update_velocities p v).ball =
      if collided p.ball p.local_ ∨ collided p.ball p.remote then
        ⟨-v.ball.x, v.ball.y⟩
      else
        ⟨if p.ball.left < 0 then |v.ball.x|
          else if p.ball.right > kWinWidth then -|v.ball.x|
          else v.ball.x,
         if p.ball.top < 0 then |v.ball.y|
          else if p.ball.bottom > kWinHeight then -|v.ball.y|
          else v.ball.y⟩ := rfl

lemma update_velocities_local (p : Positions) (v : Velocities) :
    (update_velocities p v).local_ =
      if v.local_ ≠ 0 then
        if v.local_ < 0 ∧ p.local_.top ≤ 0 then 0
        else if v.local_ > 0 ∧ p.local_.bottom ≥ kWinHeight then 0
        else v.local_
      else v.local_ := rfl

/-! ## Claims -/

/-- C2: whenever the ball bounding box overlaps either paddle bounding box on
both axes, one `update_velocities` call sets the ball's horizontal velocity
to exactly the negation of its previous value and applies none of the four
wall-boundary checks in that same update (the resulting ball velocity is
exactly `(-vx, vy)`). -/
theorem paddle_collision_flips_vx (p : Positions) (v : Velocities)
    (h : collided p.ball p.local_ ∨ collided p.ball p.remote) :
    (update_velocities p v).ball = ⟨-v.ball.x, v.ball.y⟩ := by
  rw [update_velocities_ball, if_pos h]

/-- Witness for C2: a concrete overlapping ball/paddle pair; the ball
velocity `(5/2, 5/8)` becomes exactly `(-5/2, 5/8)`. -/
theorem paddle_collision_flips_vx_witness :
    (collided ⟨100, 121, 0, 21⟩ ⟨98, 158, 0, 15⟩
      ∨ collided ⟨100, 121, 0, 21⟩ ⟨98, 158, 497, 512⟩)
    ∧ (update_velocities ⟨⟨100, 121, 0, 21⟩, ⟨98, 158, 0, 15⟩, ⟨98, 158, 497, 512⟩⟩
        ⟨⟨5 / 2, 5 / 8⟩, 0, 0⟩).ball = ⟨-(5 / 2), 5 / 8⟩ :=
  ⟨by decide,
   paddle_collision_flips_vx ⟨⟨100, 121, 0, 21⟩, ⟨98, 158, 0, 15⟩, ⟨98, 158, 497, 512⟩⟩
     ⟨⟨5 / 2, 5 / 8⟩, 0, 0⟩ (by decide)⟩

/-- C4: a negative (upward) local paddle velocity with the paddle's top edge
at or above `y = 0` is set to exactly 0 by one `update_velocities` call;
symmetrically, a positive (downward) velocity with the paddle's bottom edge
at or below the bottom boundary (`bottom >= kWinHeight`) is set to exactly 0.
(The function reads the positions and writes only velocities, so the clamp
repositions nothing.) -/
theorem paddle_clamp_zero (p : Positions) (v : Velocities) :
    (v.local_ < 0 → p.local_.top ≤ 0 → (update_velocities p v).local_ = 0)
    ∧ (0 < v.local_ → p.local_.bottom ≥ kWinHeight →
        (update_velocities p v).local_ = 0) := by
  constructor
  · intro h1 h2
    rw [update_velocities_local, if_pos h1.ne, if_pos ⟨h1, h2⟩]
  · intro h1 h2
    rw [update_velocities_local, if_pos h1.ne', if_neg, if_pos ⟨h1, h2⟩]
    rintro ⟨hc, -⟩
    linarith

/-- Witness for C4: paddle top at `-2` while moving up at `-3`, and paddle
bottom at `256` while moving down at `3`; both clamp to 0. -/
theorem paddle_clamp_zero_witness :
    (update_velocities ⟨⟨100, 110, 200, 210⟩, ⟨-2, 58, 0, 15⟩, ⟨90, 150, 497, 512⟩⟩
        ⟨⟨1, 1⟩, -3, 0⟩).local_ = 0
    ∧ (update_velocities ⟨⟨100, 110, 200, 210⟩, ⟨196, 256, 0, 15⟩, ⟨90, 150, 497, 512⟩⟩
        ⟨⟨1, 1⟩, 3, 0⟩).local_ = 0 :=
  ⟨(paddle_clamp_zero ⟨⟨100, 110, 200, 210⟩, ⟨-2, 58, 0, 15⟩, ⟨90, 150, 497, 512⟩⟩
      ⟨⟨1, 1⟩, -3, 0⟩).1 (by decide) (by decide),
   (paddle_clamp_zero ⟨⟨100, 110, 200, 210⟩, ⟨196, 256, 0, 15⟩, ⟨90, 150, 497, 512⟩⟩
      ⟨⟨1, 1⟩, 3, 0⟩).2 (by decide) (by decide)⟩

/-- C9: one `update_velocities` call never changes the magnitude of either
component of the ball velocity — for every input state, the absolute values
of the resulting horizontal and vertical ball velocities equal those of the
velocities before the update. -/
theorem ball_speed_magnitude_preserved (p : Positions) (v : Velocities) :
    |(update_velocities p v).ball.x| = |v.ball.x|
    ∧ |(update_velocities p v).ball.y| = |v.ball.y| := by
  rw [update_velocities_ball]
  split_ifs <;> simp [abs_neg, abs_abs]

/-- C3 counterexample: the claim "for every ball bounding box strictly left
of `x = 0`, after one update the horizontal velocity is positive" is false on
the code at two concrete inputs: (i) with the ball box at `[-20, -10]`
horizontally, no paddle overlap and `vx = 0`, the update yields `|0| = 0`,
which is not positive; (ii) with the same ball box overlapping the local
paddle and `vx = 2`, the paddle-collision rule takes priority and yields
`-2`, which is negative. -/
theorem wall_bounce_claim_counterexample :
    ¬ (0 < (update_velocities
        ⟨⟨100, 110, -20, -10⟩, ⟨90, 150, 200, 215⟩, ⟨90, 150, 497, 512⟩⟩
        ⟨⟨0, 1⟩, 0, 0⟩).ball.x)
    ∧ (update_velocities
        ⟨⟨100, 110, -20, -10⟩, ⟨90, 150, -25, -5⟩, ⟨90, 150, 497, 512⟩⟩
        ⟨⟨2, 1⟩, 0, 0⟩).ball.x < 0 := by
  constructor <;> decide

/-- C3 (amended): provided the ball overlaps neither paddle, the wall checks
behave as claimed, with sign forced only up to a zero prior component: a
ball box with `left < 0` gets `vx = |vx|` (positive whenever the prior `vx`
is nonzero); else if `right > kWinWidth` it gets `vx = -|vx|` (negative when
nonzero); independently, `top < 0` gives `vy = |vy|`, else `bottom >
kWinHeight` gives `vy = -|vy|`; in a corner case both components flip in the
same update. -/
theorem wall_bounce_amended (p : Positions) (v : Velocities)
    (hnc : ¬ (collided p.ball p.local_ ∨ collided p.ball p.remote)) :
    (p.ball.left < 0 →
       (update_velocities p v).ball.x = |v.ball.x|
       ∧ (v.ball.x ≠ 0 → 0 < (update_velocities p v).ball.x))
    ∧ (¬ p.ball.left < 0 → p.ball.right > kWinWidth →
       (update_velocities p v).ball.x = -|v.ball.x|
       ∧ (v.ball.x ≠ 0 → (update_velocities p v).ball.x < 0))
    ∧ (p.ball.top < 0 →
       (update_velocities p v).ball.y = |v.ball.y|
       ∧ (v.ball.y ≠ 0 → 0 < (update_velocities p v).ball.y))
    ∧ (¬ p.ball.top < 0 → p.ball.bottom > kWinHeight →
       (update_velocities p v).ball.y = -|v.ball.y|
       ∧ (v.ball.y ≠ 0 → (update_velocities p v).ball.y < 0))
    ∧ (p.ball.left < 0 → p.ball.top < 0 →
       (update_velocities p v).ball = ⟨|v.ball.x|, |v.ball.y|⟩) := by
  have hb := update_velocities_ball p v
  rw [if_neg hnc] at hb
  have hbx : (update_velocities p v).ball.x =
      if p.ball.left < 0 then |v.ball.x|
      else if p.ball.right > kWinWidth then -|v.ball.x|
      else v.ball.x := by
    rw [hb]
  have hby : (update_velocities p v).ball.y =
      if p.ball.top < 0 then |v.ball.y|
      else if p.ball.bottom > kWinHeight then -|v.ball.y|
      else v.ball.y := by
    rw [hb]
  refine ⟨?_, ?_, ?_, ?_, ?_⟩
  · intro h
    rw [hbx, if_pos h]
    exact ⟨rfl, fun hne => abs_pos.mpr hne⟩
  · intro h1 h2
    rw [hbx, if_neg h1, if_pos h2]
    exact ⟨rfl, fun hne => neg_lt_zero.mpr (abs_pos.mpr hne)⟩
  · intro h
    rw [hby, if_pos h]
    exact ⟨rfl, fun hne => abs_pos.mpr hne⟩
  · intro h1 h2
    rw [hby, if_neg h1, if_pos h2]
    exact ⟨rfl, fun hne => neg_lt_zero.mpr (abs_pos.mpr hne)⟩
  · intro h1 h2
    rw [hb, if_pos h1, if_pos h2]

/-- Witness for C3 (amended): ball box with `left = -5`, no paddle overlap,
prior `vx = -3 ≠ 0`; the update yields a positive horizontal velocity. -/
theorem wall_bounce_amended_witness :
    ¬ (collided ⟨100, 110, -5, 6⟩ ⟨90, 150, 200, 215⟩
        ∨ collided ⟨100, 110, -5, 6⟩ ⟨90, 150, 497, 512⟩)
    ∧ 0 < (update_velocities
        ⟨⟨100, 110, -5, 6⟩, ⟨90, 150, 200, 215⟩, ⟨90, 150, 497, 512⟩⟩
        ⟨⟨-3, 1⟩, 0, 0⟩).ball.x :=
  ⟨by decide,
   ((wall_bounce_amended ⟨⟨100, 110, -5, 6⟩, ⟨90, 150, 200, 215⟩, ⟨90, 150, 497, 512⟩⟩
      ⟨⟨-3, 1⟩, 0, 0⟩ (by decide)).1 (by decide)).2 (by decide)⟩

/-- C7 counterexample: in the `src/Source/main.cpp` revision,
`update_velocities` is not a function of the shape geometry and prior
velocities alone and performs network I/O: at one concrete geometry/velocity
input, two different values delivered by the socket produce two different
velocity results (the remote paddle velocity is overwritten by the received
value), and the list of values handed to the socket for sending is
non-empty. -/
theorem source_update_velocities_impure_counterexample :
    (update_velocities_Source
        ⟨⟨100, 110, 200, 210⟩, ⟨100, 160, 0, 15⟩, ⟨100, 160, 497, 512⟩⟩
        ⟨⟨1, 1⟩, 0, 0⟩ 5).1
      ≠ (update_velocities_Source
        ⟨⟨100, 110, 200, 210⟩, ⟨100, 160, 0, 15⟩, ⟨100, 160, 497, 512⟩⟩
        ⟨⟨1, 1⟩, 0, 0⟩ 7).1
    ∧ (update_velocities_Source
        ⟨⟨100, 110, 200, 210⟩, ⟨100, 160, 0, 15⟩, ⟨100, 160, 497, 512⟩⟩
        ⟨⟨1, 1⟩, 0, 0⟩ 5).2 ≠ ([] : List ℚ) := by
  constructor <;> decide

/-- C7 (amended): the `src/src/main.cpp` revision's `update_velocities` is
pure — a plain function of the bounding boxes and prior velocities that
produces only velocities and performs no I/O (it is `update_velocities`
here, a total Lean function of those two arguments).  The `src/Source`
revision computes the same physics and then additionally performs one
velocity exchange: it sends the updated local paddle velocity and overwrites
the remote paddle velocity with the received value.  Formally, the Source
version factors as the pure update followed by that exchange. -/
theorem update_velocities_purity_amended (p : Positions) (v : Velocities) (r : ℚ) :
    update_velocities_Source p v r
      = ({ update_velocities p v with remote := r },
         [(update_velocities p v).local_]) := rfl

/-- C1: `Connection::ExchangeFun` obeys the role-based ordering on every
round: for every pair of transport outcomes and every prior connection
state, the Server-role exchange invokes the send primitive first (and the
receive primitive, if at all, strictly after it), while the Client-role
exchange invokes the receive primitive first; the role argument alone
determines the order. -/
theorem exchange_role_order (send_st recv_st : SocketStatus) (c : ConnState) :
    (Connection.Exchange true send_st recv_st c).2.trace
      = c.trace ++ (if send_st = SocketStatus.Done
          then [ExEvent.send, ExEvent.receive] else [ExEvent.send])
    ∧ (Connection.Exchange false send_st recv_st c).2.trace
      = c.trace ++ (if recv_st = SocketStatus.Done
          then [ExEvent.receive, ExEvent.send] else [ExEvent.receive]) := by
  constructor
  · by_cases h : send_st = SocketStatus.Done <;>
      simp [Connection.Exchange, Connection.ExchangeFun, Connection.Send,
        Connection.Receive, h]
  · by_cases h : recv_st = SocketStatus.Done <;>
      simp [Connection.Exchange, Connection.ExchangeFun, Connection.Send,
        Connection.Receive, h]

/-- C5 counterexample: a socket failure inside the chat exchange does NOT
break the frame loop.  Concretely, with the first frame's chat-exchange send
returning `Disconnected` (a non-success status) but its velocity exchange
succeeding, the loop over two offered frames executes both frames instead of
breaking at the first — refuting "any send/receive failure after the game
loop has started is fatal". -/
theorem chat_failure_not_fatal_counterexample :
    (FrameNet.mk SocketStatus.Disconnected SocketStatus.Done SocketStatus.Done
        SocketStatus.Done).chat_send ≠ SocketStatus.Done
    ∧ (run_loop true
        [⟨SocketStatus.Disconnected, SocketStatus.Done, SocketStatus.Done,
            SocketStatus.Done⟩,
         ⟨SocketStatus.Done, SocketStatus.Done, SocketStatus.Done,
            SocketStatus.Done⟩]
        ⟨SocketStatus.Done, true, []⟩).2.1 = 2 := by
  constructor <;> decide

/-- C5 (amended): a failing socket primitive aborts the current exchange
(when the round's first primitive fails, the remaining primitive is not
invoked) and is surfaced to the caller as a failed result carrying the
transport status; in the `src/src` game loop a failure of the per-frame
velocity exchange is fatal — the frame loop breaks after that frame, the
connection is released and the process exits with `EXIT_SUCCESS`, with no
retry — whereas a failure inside the per-frame chat exchange is ignored by
`UpdateChat` and does not by itself break the loop. -/
theorem failure_semantics_amended (is_server : Bool) (s r : SocketStatus)
    (c : ConnState) (f : FrameNet) (rest : List FrameNet) :
    (s ≠ SocketStatus.Done →
       Connection.Exchange true s r c
         = (false, { status := s, connected := c.connected,
                     trace := c.trace ++ [ExEvent.send] }))
    ∧ (r ≠ SocketStatus.Done →
       Connection.Exchange false s r c
         = (false, { status := r, connected := c.connected,
                     trace := c.trace ++ [ExEvent.receive] }))
    ∧ (s = SocketStatus.Done → r ≠ SocketStatus.Done →
       Connection.Exchange true s r c
         = (false, { status := r, connected := c.connected,
                     trace := c.trace ++ [ExEvent.send, ExEvent.receive] }))
    ∧ (r = SocketStatus.Done → s ≠ SocketStatus.Done →
       Connection.Exchange false s r c
         = (false, { status := s, connected := c.connected,
                     trace := c.trace ++ [ExEvent.receive, ExEvent.send] }))
    ∧ ((frame is_server f c).1 = false →
       run_loop is_server (f :: rest) c
         = (EXIT_SUCCESS, 1, Connection.Close (frame is_server f c).2)
       ∧ (run_loop is_server (f :: rest) c).2.2.connected = false)
    ∧ ((f.chat_send ≠ SocketStatus.Done ∨ f.chat_recv ≠ SocketStatus.Done) →
       (frame is_server f c).1 = true →
       run_loop is_server (f :: rest) c
         = ((run_loop is_server rest (frame is_server f c).2).1,
            (run_loop is_server rest (frame is_server f c).2).2.1 + 1,
            (run_loop is_server rest (frame is_server f c).2).2.2)) := by
  refine ⟨?_, ?_, ?_, ?_, ?_, ?_⟩
  · intro h
    simp [Connection.Exchange, Connection.ExchangeFun, Connection.Send, h]
  · intro h
    simp [Connection.Exchange, Connection.ExchangeFun, Connection.Receive, h]
  · intro h1 h2
    simp [Connection.Exchange, Connection.ExchangeFun, Connection.Send,
      Connection.Receive, h1, h2]
  · intro h1 h2
    simp [Connection.Exchange, Connection.ExchangeFun, Connection.Send,
      Connection.Receive, h1, h2]
  · intro h
    have e : run_loop is_server (f :: rest) c
        = (EXIT_SUCCESS, 1, Connection.Close (frame is_server f c).2) := by
      simp [run_loop, h]
    exact ⟨e, by rw [e]; rfl⟩
  · intro _ h
    simp [run_loop, h]

/-- Witness for C5 (amended): a server-role exchange whose send fails with
`Disconnected` aborts with that status and a send-only trace, and a frame
whose velocity exchange fails breaks a one-frame loop with `EXIT_SUCCESS`
and a released connection. -/
theorem failure_semantics_amended_witness :
    Connection.Exchange true SocketStatus.Disconnected SocketStatus.Done
        ⟨SocketStatus.Done, true, []⟩
      = (false, { status := SocketStatus.Disconnected, connected := true,
                  trace := [ExEvent.send] })
    ∧ (run_loop true
        [⟨SocketStatus.Done, SocketStatus.Done, SocketStatus.Disconnected,
            SocketStatus.Done⟩]
        ⟨SocketStatus.Done, true, []⟩
        = (EXIT_SUCCESS, 1, Connection.Close
            (frame true
              ⟨SocketStatus.Done, SocketStatus.Done, SocketStatus.Disconnected,
                SocketStatus.Done⟩
              ⟨SocketStatus.Done, true, []⟩).2)
       ∧ (run_loop true
        [⟨SocketStatus.Done, SocketStatus.Done, SocketStatus.Disconnected,
            SocketStatus.Done⟩]
        ⟨SocketStatus.Done, true, []⟩).2.2.connected = false) :=
  ⟨(failure_semantics_amended true SocketStatus.Disconnected SocketStatus.Done
      ⟨SocketStatus.Done, true, []⟩
      ⟨SocketStatus.Done, SocketStatus.Done, SocketStatus.Disconnected,
        SocketStatus.Done⟩ []).1 (by decide),
   (failure_semantics_amended true SocketStatus.Disconnected SocketStatus.Done
      ⟨SocketStatus.Done, true, []⟩
      ⟨SocketStatus.Done, SocketStatus.Done, SocketStatus.Disconnected,
        SocketStatus.Done⟩ []).2.2.2.2.1 (by decide)⟩

/-- C6: the chat log preserves arrival order (after any sequence of
one-at-a-time appends of non-empty entries the log is a contiguous suffix of
the appended sequence), and once the log reaches its maximum retained size
of 100 entries — the 100th append, which `PrintChat` immediately truncates
to the most recent 20 — the next append results in a log holding exactly the
most recent 21 entries (20 kept plus the 1 newly appended), in order. -/
theorem chatlog_retention :
    (∀ msgs : List Chars, (∀ m ∈ msgs, m ≠ []) →
       ∃ k, List.foldl chatAppend [] msgs = msgs.drop k)
    ∧ (∀ (l : List Chars) (b c : Chars), (∀ m ∈ l, m ≠ []) → b ≠ [] → c ≠ [] →
       l.length = 99 →
       List.foldl chatAppend [] (l ++ [b, c]) = (l ++ [b, c]).drop 80
       ∧ ((l ++ [b, c]).drop 80).length = 21) := by
  constructor
  · intro msgs h
    obtain ⟨k, hk, -⟩ := chatFold_suffix msgs [] (by simp) h
    exact ⟨k, by simpa using hk⟩
  · intro l b c hl hb hc h99
    constructor
    · have h1 : List.foldl chatAppend [] l = l := by
        simpa using chatFold_no_trunc l [] hl (by simp [h99])
      have e : l ++ [b, c] = (l ++ [b]) ++ [c] := by
        rw [List.append_assoc, List.singleton_append]
      rw [e, List.foldl_append, List.foldl_append, h1]
      simp only [List.foldl_cons, List.foldl_nil]
      rw [chatAppend_full l b hb h99]
      rw [chatAppend_small _ c hc
        (by simp only [List.length_drop, List.length_append, List.length_cons,
              List.length_nil]; omega)]
      rw [List.drop_append_of_le_length (by omega),
        List.drop_append_of_le_length
          (by simp only [List.length_append, List.length_cons, List.length_nil]; omega),
        List.drop_append_of_le_length (by omega)]
    · simp only [List.length_drop, List.length_append, List.length_cons,
        List.length_nil]
      omega

/-- Witness for C6: a one-element fold is a suffix of its input, and from 99
retained entries two further appends yield exactly the most recent 21
entries of the 101 appended. -/
theorem chatlog_retention_witness :
    (∃ k, List.foldl chatAppend [] [['a']] = [['a']].drop k)
    ∧ List.foldl chatAppend [] (List.replicate 99 ['a'] ++ [['b'], ['c']])
        = (List.replicate 99 ['a'] ++ [['b'], ['c']]).drop 80 :=
  ⟨chatlog_retention.1 [['a']] (by decide),
   (chatlog_retention.2 (List.replicate 99 ['a']) ['b'] ['c']
      (by decide) (by decide) (by decide) (by simp)).1⟩

/-- C8 counterexample: for a pending line of 51 characters, the payload
handed to the exchange is NOT that line tagged with the local nickname — the
line is first truncated to 50 characters, so the claim's formatted payload
differs from the transmitted one at this input. -/
theorem pending_chat_payload_counterexample :
    (Connection.UpdateChat ['n'] (List.replicate 51 'a') [] []).1
      ≠ ['n'] ++ [':', '>', ' '] ++ List.replicate 51 'a' := by
  decide

/-- C8 (amended): on each frame's chat exchange, if the pending outbound
slot holds a line, the payload handed to the exchange is that line truncated
to its first 50 characters (the identity for lines of at most 50) and tagged
with the local nickname in the format `<nick>:> <text>`, and the slot is
cleared to empty afterwards; if no line is pending, an empty payload is sent
and the slot stays empty. -/
theorem pending_chat_payload_amended (nick line : Chars) (msgs : List Chars)
    (recv : Chars) :
    (line ≠ [] →
       (Connection.UpdateChat nick line msgs recv).1
         = nick ++ [':', '>', ' '] ++ line.take 50
       ∧ (Connection.UpdateChat nick line msgs recv).2.1 = [])
    ∧ ((Connection.UpdateChat nick [] msgs recv).1 = []
       ∧ (Connection.UpdateChat nick [] msgs recv).2.1 = []) := by
  refine ⟨fun h => ⟨?_, ?_⟩, ?_, ?_⟩
  · rcases le_or_lt line.length 50 with hle | hgt
    · simp [Connection.UpdateChat, h, Nat.not_lt.mpr hle,
        List.take_of_length_le hle]
    · simp [Connection.UpdateChat, h, hgt]
  · simp [Connection.UpdateChat, h]
  · simp [Connection.UpdateChat]
  · simp [Connection.UpdateChat]

/-- Witness for C8 (amended): a pending two-character line is sent tagged
and untruncated with the slot cleared; with nothing pending the payload is
empty. -/
theorem pending_chat_payload_amended_witness :
    ((Connection.UpdateChat ['n'] ['h', 'i'] [] []).1
        = ['n'] ++ [':', '>', ' '] ++ (['h', 'i'] : Chars).take 50
     ∧ (Connection.UpdateChat ['n'] ['h', 'i'] [] []).2.1 = [])
    ∧ (Connection.UpdateChat ['n'] [] [] []).1 = [] :=
  ⟨(pending_chat_payload_amended ['n'] ['h', 'i'] [] []).1 (by decide),
   (pending_chat_payload_amended ['n'] ['x'] [] []).2.1⟩

/-- C10: a pending outbound chat line longer than 50 characters is truncated
to its first 50 characters before being tagged with the local nickname and
handed to the exchange (and the truncated text has exactly 50 characters); a
pending line of at most 50 characters is transmitted with its text
unmodified. -/
theorem chat_truncation_50 (nick line : Chars) (msgs : List Chars)
    (recv : Chars) (h : line ≠ []) :
    (line.length ≤ 50 →
       (Connection.UpdateChat nick line msgs recv).1
         = nick ++ [':', '>', ' '] ++ line)
    ∧ (50 < line.length →
       (Connection.UpdateChat nick line msgs recv).1
         = nick ++ [':', '>', ' '] ++ line.take 50
       ∧ (line.take 50).length = 50) := by
  constructor
  · intro hle
    simp [Connection.UpdateChat, h, Nat.not_lt.mpr hle]
  · intro hgt
    refine ⟨by simp [Connection.UpdateChat, h, hgt], ?_⟩
    rw [List.length_take]
    omega

/-- Witness for C10: a two-character line goes through unmodified; a
51-character line is cut to its first 50 characters. -/
theorem chat_truncation_50_witness :
    (Connection.UpdateChat ['n'] ['h', 'i'] [] []).1
        = ['n'] ++ [':', '>', ' '] ++ ['h', 'i']
    ∧ (Connection.UpdateChat ['n'] (List.replicate 51 'a') [] []).1
        = ['n'] ++ [':', '>', ' '] ++ (List.replicate 51 'a').take 50 :=
  ⟨(chat_truncation_50 ['n'] ['h', 'i'] [] [] (by decide)).1 (by decide),
   ((chat_truncation_50 ['n'] (List.replicate 51 'a') [] [] (by decide)).2
      (by decide)).1⟩
